import Mathlib

/-!
# Verification of the idiom-game session and scoring engine

Shallow embedding of `src/idiom_game.py` (plugin `IdiomGame`): the question
bank, the per-user session map (`current_games`), the score ledger
(`scores`), the display-name map (`usernames`), the daily-window flag
(`is_daily_game_time`), and the command handler `on_handle_context`.

Python strings are modelled through their character sequences (`String.data`
in Lean), so `content[3:]`, `str.strip()` and `str.startswith` become
character-list operations.  Python dicts are modelled as insertion-ordered
association lists with first-key update semantics.  `random.sample` is
modelled by passing the sampled list as an explicit argument (`sample3`)
to the handler: the handler must behave uniformly in it whenever the
sampling call is not reached.  File I/O (`save_scores`, `save_usernames`)
only mirrors the in-memory structures, so the in-memory maps stand for
the persisted stores.  An exception raised by the Python code is modelled
by `Except`: the only raise site reachable in the handler is
`kwargs.get('msg').get(...)` when the message metadata is absent.
-/

namespace IdiomGame

/-! ## Python string primitives (character-level semantics) -/

/-- Whitespace characters removed by Python's `str.strip()` (the ASCII ones;
the game's commands and answers contain no exotic Unicode spaces). -/
def isPySpace (c : Char) : Bool :=
  c == ' ' || c == '\t' || c == '\n' || c == '\r' || c == '\x0b' || c == '\x0c'

/-- Python `s.strip()`. -/
def pyStrip (s : String) : String :=
  ⟨((s.data.dropWhile isPySpace).reverse.dropWhile isPySpace).reverse⟩

/-- Python `s[n:]` (character slicing). -/
def dropChars (s : String) (n : Nat) : String :=
  ⟨s.data.drop n⟩

/-- Python `s.startswith(p)`. -/
def pyStartsWith (s p : String) : Bool :=
  p.data.isPrefixOf s.data

/-! ## Python dicts as insertion-ordered association lists -/

/-- `d.get(k)` as an `Option`: value at the first matching key. -/
def lookupKey : List (String × α) → String → Option α
  | [], _ => none
  | p :: rest, k => if p.1 == k then some p.2 else lookupKey rest k

/-- `d.get(k, dflt)`. -/
def getKeyD (m : List (String × α)) (k : String) (dflt : α) : α :=
  (lookupKey m k).getD dflt

/-- `k in d`. -/
def hasKey (m : List (String × α)) (k : String) : Bool :=
  m.any (fun p => p.1 == k)

/-- `d[k] = v`: update the existing entry in place, else append. -/
def setKey (m : List (String × α)) (k : String) (v : α) : List (String × α) :=
  match m with
  | [] => [(k, v)]
  | p :: rest => if p.1 == k then (k, v) :: rest else p :: setKey rest k v

/-- `del d[k]`. -/
def delKey (m : List (String × α)) (k : String) : List (String × α) :=
  m.filter (fun p => !(p.1 == k))

/-! ## Data model -/

/-- One record of `questions.json` (`image`, `answer`, `hints`); the game
code reads only `image` and `answer`. -/
structure Question where
  image : String
  answer : String
  hints : List String
deriving DecidableEq, Repr

/-- Placeholder used for list indexing defaults; never reached on the
states the theorems quantify over (the session invariant keeps
`current_index` inside `questions`). -/
def dummyQ : Question := ⟨"", "", []⟩

/-- One value of `self.current_games`: `{"questions": ..,
"current_index": .., "score": ..}`. -/
structure Game where
  questions : List Question
  current_index : Nat
  score : Int
deriving DecidableEq, Repr

/-- Whole mutable state of the plugin object. -/
structure PState where
  questions : List Question
  current_games : List (String × Game)
  scores : List (String × Int)
  usernames : List (String × String)
  is_daily_game_time : Bool
deriving DecidableEq, Repr

/-- An outbound `Reply`: text or an image path. -/
inductive Reply where
  | text (s : String)
  | imagePath (p : String)
deriving DecidableEq, Repr

inductive ContextType where
  | TEXT
  | OTHER
deriving DecidableEq, Repr

/-- The `msg` object attached to the context; `actual_user_nickname` may be
absent (then `msg.get` defaults it). -/
structure Msg where
  actual_user_nickname : Option String
deriving DecidableEq, Repr

/-- Inbound context: type, raw text, session id, and the optional `msg`
metadata (`kwargs.get('msg')` is `None` when absent). -/
structure Context where
  type : ContextType
  content : String
  session_id : String
  msg : Option Msg
deriving DecidableEq, Repr

/-- A Python exception escaping the handler. -/
inductive PyError where
  | attributeError
deriving DecidableEq, Repr

/-! ## Ledger, names, leaderboard -/

/-- `IdiomGame.add_score`: no-op unless `is_daily_game_time`; otherwise
create the entry at 0 if absent and add `points` (then persist). -/
def add_score (gate : Bool) (scores : List (String × Int)) (session_id : String)
    (points : Int) : List (String × Int) :=
  if !gate then scores
  else setKey scores session_id (getKeyD scores session_id 0 + points)

/-- `IdiomGame.get_score`. -/
def get_score (scores : List (String × Int)) (session_id : String) : Int :=
  getKeyD scores session_id 0

/-- `IdiomGame.update_username`: write only when absent or changed. -/
def update_username (st : PState) (session_id username : String) : PState :=
  if !(hasKey st.usernames session_id) || !(getKeyD st.usernames session_id "" == username) then
    { st with usernames := setKey st.usernames session_id username }
  else st

/-- `IdiomGame.get_username`. -/
def get_username (st : PState) (session_id : String) : String :=
  getKeyD st.usernames session_id "未知用户"

/-- `sorted(self.scores.items(), key=lambda x: x[1], reverse=True)`:
Python's sort is stable; `List.insertionSort` with the reflexive
descending-score relation computes the same stable descending order. -/
def sortScores (scores : List (String × Int)) : List (String × Int) :=
  List.insertionSort (fun a b => a.2 ≥ b.2) scores

/-- `IdiomGame.get_top_players`. -/
def get_top_players (st : PState) (limit : Nat) : List (String × Int) :=
  ((sortScores st.scores).take limit).map (fun p => (get_username st p.1, p.2))

/-- `next((i for i, x in enumerate(l, start) if p x), 0)`. -/
def findFrom (p : α → Bool) : List α → Nat → Nat
  | [], _ => 0
  | a :: l, i => if p a then i else findFrom p l (i + 1)

/-- The rank computation of the `#积分` branch: 1-based position of the
user in the descending sort, 0 when absent. -/
def rankNext (scores : List (String × Int)) (session_id : String) : Nat :=
  findFrom (fun p => p.1 == session_id) (sortScores scores) 1

/-! ## Reply texts (the handler's f-strings) -/

def loadFailMsg : String := "题库加载失败,无法开始游戏"

def alreadyMsg : String := "您已经在游戏中了,请先完成当前题目或输入 #结束 结束游戏"

def noGameMsg : String := "当前没有进行中的游戏,请先使用 #猜成语 开始游戏"

def wrongMsg : String := "答案不对,再想想~"

def emptyRankMsg : String := "暂无排行数据"

/-- `os.path.join(curdir, "images", image)` with the plugin directory as
root. -/
def img_path (image : String) : String := "images/" ++ image

def startInfoMsg (gate : Bool) : String :=
  if gate then "第1题/共3题 (每日答题时间，答题将计分)"
  else "第1题/共3题 (非答题时间，答题不计分)"

def questionInfoMsg (current_index : Nat) : String :=
  "第" ++ toString (current_index + 1) ++ "题/共3题"

def correctNextMsg (answer : String) (score : Int) : String :=
  "恭喜你答对了! 答案就是: " ++ answer ++ "\n+3分！当前积分：" ++ toString score

def correctFinalMsg (answer : String) (score roundScore : Int) : String :=
  "恭喜你答对了! 答案就是: " ++ answer ++ "\n+3分！当前积分：" ++ toString score ++
    "\n\n本轮游戏结束！\n本轮得分：" ++ toString roundScore ++ "分"

def endGameMsg (answer : String) (roundScore : Int) : String :=
  "游戏结束,当前题目答案是: " ++ answer ++ "\n本轮得分：" ++ toString roundScore ++ "分"

def skipNextMsg (score : Int) : String :=
  "-2分！当前积分：" ++ toString score

def skipFinalMsg (score roundScore : Int) : String :=
  "-2分！当前积分：" ++ toString score ++ "\n\n本轮游戏结束！\n本轮得分：" ++
    toString roundScore ++ "分"

def scoreReplyMsg (score : Int) (rank : Nat) : String :=
  "您当前的积分是：" ++ toString score ++ "\n" ++
    (if rank > 0 then "当前排名：第" ++ toString rank ++ "名" else "暂无排名")

def medalLine (i : Nat) (name : String) (score : Int) : String :=
  if i = 1 then "🥇 第" ++ toString i ++ "名: " ++ name ++ " - " ++ toString score ++ "分\n"
  else if i = 2 then "🥈 第" ++ toString i ++ "名: " ++ name ++ " - " ++ toString score ++ "分\n"
  else if i = 3 then "🥉 第" ++ toString i ++ "名: " ++ name ++ " - " ++ toString score ++ "分\n"
  else "第" ++ toString i ++ "名: " ++ name ++ " - " ++ toString score ++ "分\n"

def rankText (players : List (String × Int)) : String :=
  "🏆 积分排行榜 TOP10\n\n" ++
    String.join (players.enum.map (fun p => medalLine (p.1 + 1) p.2.1 p.2.2))

/-! ## The command handler -/

/-- Body of `IdiomGame.on_handle_context` after the nickname has been
extracted: `content` is the already-stripped message text, `sample3` the
value `random.sample(self.questions, 3)` would return if the sampling call
is reached.  Returns the new plugin state and the reply list (`none` when
the handler falls through without setting a reply). -/
def handle_text (st : PState) (session_id username content : String)
    (sample3 : List Question) : PState × Option (List Reply) :=
  let st := update_username st session_id username
  if content == "#排行" then
    let top_players := get_top_players st 10
    if top_players.isEmpty then (st, some [Reply.text emptyRankMsg])
    else (st, some [Reply.text (rankText top_players)])
  else if content == "#积分" then
    let score := get_score st.scores session_id
    let rank := rankNext st.scores session_id
    (st, some [Reply.text (scoreReplyMsg score rank)])
  else if content == "#猜成语" then
    if st.questions.length < 3 then
      (st, some [Reply.text loadFailMsg])
    else if hasKey st.current_games session_id then
      (st, some [Reply.text alreadyMsg])
    else
      let round_questions := sample3
      let st := { st with
        current_games := setKey st.current_games session_id
          ⟨round_questions, 0, 0⟩ }
      let question := round_questions.getD 0 dummyQ
      (st, some [Reply.imagePath (img_path question.image),
                 Reply.text (startInfoMsg st.is_daily_game_time)])
  else if pyStartsWith content "#答案 " then
    match lookupKey st.current_games session_id with
    | none => (st, some [Reply.text noGameMsg])
    | some game =>
      let current_question := game.questions.getD game.current_index dummyQ
      let answer := pyStrip (dropChars content 3)
      if answer == current_question.answer then
        let scores' := add_score st.is_daily_game_time st.scores session_id 3
        let game := { game with score := game.score + 3 }
        let score := get_score scores' session_id
        if game.current_index < 2 then
          let game := { game with current_index := game.current_index + 1 }
          let next_question := game.questions.getD game.current_index dummyQ
          ({ st with scores := scores',
                     current_games := setKey st.current_games session_id game },
           some [Reply.text (correctNextMsg answer score),
                 Reply.imagePath (img_path next_question.image),
                 Reply.text (questionInfoMsg game.current_index)])
        else
          ({ st with scores := scores',
                     current_games := delKey st.current_games session_id },
           some [Reply.text (correctFinalMsg answer score game.score)])
      else (st, some [Reply.text wrongMsg])
  else if content == "#结束" then
    match lookupKey st.current_games session_id with
    | none => (st, none)
    | some game =>
      let current_question := game.questions.getD game.current_index dummyQ
      ({ st with current_games := delKey st.current_games session_id },
       some [Reply.text (endGameMsg current_question.answer game.score)])
  else if content == "#跳过" then
    match lookupKey st.current_games session_id with
    | none => (st, none)
    | some game =>
      let scores' := add_score st.is_daily_game_time st.scores session_id (-2)
      let score := get_score scores' session_id
      if game.current_index < 2 then
        let game := { game with current_index := game.current_index + 1 }
        let next_question := game.questions.getD game.current_index dummyQ
        ({ st with scores := scores',
                   current_games := setKey st.current_games session_id game },
         some [Reply.text (skipNextMsg score),
               Reply.imagePath (img_path next_question.image),
               Reply.text (questionInfoMsg game.current_index)])
      else
        ({ st with scores := scores',
                   current_games := delKey st.current_games session_id },
         some [Reply.text (skipFinalMsg score game.score)])
  else (st, none)

/-- `IdiomGame.on_handle_context`: non-TEXT contexts are ignored; when
`kwargs.get('msg')` is `None`, `None.get('actual_user_nickname', ...)`
raises `AttributeError` (no `try` surrounds the handler), modelled as
`Except.error`. -/
def on_handle_context (st : PState) (ctx : Context) (sample3 : List Question) :
    Except PyError (PState × Option (List Reply)) :=
  if ctx.type != ContextType.TEXT then Except.ok (st, none)
  else
    match ctx.msg with
    | none => Except.error PyError.attributeError
    | some m =>
      Except.ok (handle_text st ctx.session_id
        (m.actual_user_nickname.getD "未知用户") (pyStrip ctx.content) sample3)

/-! ## Startup (`IdiomGame.__init__`) -/

/-- Outcome of reading and parsing `questions.json`: either the parsed
record list, or any exception (missing file, malformed JSON). -/
inductive LoadOutcome where
  | ok (qs : List Question)
  | failed
deriving DecidableEq, Repr

/-- The bank `__init__` installs: a load exception is logged and the bank
set to `[]`; the constructor continues either way. -/
def load_questions : LoadOutcome → List Question
  | LoadOutcome.ok qs => qs
  | LoadOutcome.failed => []

/-- State after `__init__`: empty session map, scores and usernames from
their (optional) files, gate initialised to false. -/
def init_state (bank : LoadOutcome) (scoresLoaded : Option (List (String × Int)))
    (usernamesLoaded : Option (List (String × String))) : PState :=
  { questions := load_questions bank
    current_games := []
    scores := scoresLoaded.getD []
    usernames := usernamesLoaded.getD []
    is_daily_game_time := false }

/-! ## Association-list lemmas -/

theorem lookupKey_setKey_self (m : List (String × α)) (k : String) (v : α) :
    lookupKey (setKey m k v) k = some v := by
  induction m with
  | nil => simp [setKey, lookupKey]
  | cons p rest ih =>
    by_cases h : p.1 = k
    · simp [setKey, h, lookupKey]
    · simpa [setKey, lookupKey, h] using ih

theorem lookupKey_setKey_ne (m : List (String × α)) (k k' : String) (v : α)
    (h : k' ≠ k) : lookupKey (setKey m k v) k' = lookupKey m k' := by
  induction m with
  | nil => simp [setKey, lookupKey, Ne.symm h]
  | cons p rest ih =>
    by_cases hp : p.1 = k
    · simp [setKey, hp, lookupKey, Ne.symm h]
    · by_cases hp' : p.1 = k'
      · simp only [setKey, beq_iff_eq, hp, if_false]
        simp [lookupKey, hp']
      · simpa [setKey, lookupKey, hp, hp'] using ih

theorem lookupKey_delKey_self (m : List (String × α)) (k : String) :
    lookupKey (delKey m k) k = none := by
  induction m with
  | nil => simp [delKey, lookupKey]
  | cons p rest ih =>
    by_cases h : p.1 = k
    · simpa [delKey, List.filter_cons, h] using ih
    · simpa [delKey, List.filter_cons, lookupKey, h] using ih

theorem hasKey_eq_isSome (m : List (String × α)) (k : String) :
    hasKey m k = (lookupKey m k).isSome := by
  induction m with
  | nil => simp [hasKey, lookupKey]
  | cons p rest ih =>
    by_cases h : p.1 = k
    · simp [hasKey, lookupKey, h]
    · have hb : (p.1 == k) = false := by simp [h]
      simpa [hasKey, lookupKey, h, hb] using ih

theorem lookupKey_none_of_hasKey_false (m : List (String × α)) (k : String)
    (h : hasKey m k = false) : lookupKey m k = none := by
  have := hasKey_eq_isSome m k
  rw [h] at this
  cases hl : lookupKey m k with
  | none => rfl
  | some v => rw [hl] at this; simp at this

theorem getKeyD_setKey_self (m : List (String × α)) (k : String) (v d : α) :
    getKeyD (setKey m k v) k d = v := by
  simp [getKeyD, lookupKey_setKey_self]

theorem getKeyD_setKey_ne (m : List (String × α)) (k k' : String) (v : α) (d : α)
    (h : k' ≠ k) : getKeyD (setKey m k v) k' d = getKeyD m k' d := by
  simp [getKeyD, lookupKey_setKey_ne m k k' v h]

/-! ## Projection lemmas for `update_username` -/

@[simp] theorem update_username_questions (st : PState) (i u : String) :
    (update_username st i u).questions = st.questions := by
  unfold update_username; split <;> rfl

@[simp] theorem update_username_current_games (st : PState) (i u : String) :
    (update_username st i u).current_games = st.current_games := by
  unfold update_username; split <;> rfl

@[simp] theorem update_username_scores (st : PState) (i u : String) :
    (update_username st i u).scores = st.scores := by
  unfold update_username; split <;> rfl

@[simp] theorem update_username_gate (st : PState) (i u : String) :
    (update_username st i u).is_daily_game_time = st.is_daily_game_time := by
  unfold update_username; split <;> rfl

/-! ## Command-shape discrimination -/

/-- A message starting with the answer prefix matches none of the other
command branches. -/
theorem answer_prefix_ne (c : String) (h : pyStartsWith c "#答案 " = true) :
    c ≠ "#排行" ∧ c ≠ "#积分" ∧ c ≠ "#猜成语" ∧ c ≠ "#结束" ∧ c ≠ "#跳过" := by
  refine ⟨?_, ?_, ?_, ?_, ?_⟩ <;> (rintro rfl; revert h; decide)

/-! ## C1: scoring deltas and the daily-window gate -/

/-- A round's scoring calls: each event is the gate flag at the instant of
the call together with the delta (+3 for correct, -2 for skip). -/
def applyDeltas (events : List (Bool × Int)) (scores : List (String × Int))
    (session_id : String) : List (String × Int) :=
  events.foldl (fun sc e => add_score e.1 sc session_id e.2) scores

/-- Sum of exactly those deltas whose event had the gate true. -/
def gatedSum (events : List (Bool × Int)) : Int :=
  ((events.filter (fun e => e.1)).map (fun e => e.2)).sum

theorem get_score_add_score_true (scores : List (String × Int)) (sid : String)
    (p : Int) :
    get_score (add_score true scores sid p) sid = get_score scores sid + p := by
  simp [add_score, get_score, getKeyD_setKey_self]

/-- C1: a scoring call adds its delta to the persisted ledger total exactly
when the gate flag is true at that call; with the flag false the whole
store is unchanged; over any sequence of scoring calls the final total is
the initial total plus the sum of exactly the gated-true deltas, so a gate
flip affects only subsequent calls. -/
theorem C1_gate_controls_ledger (scores : List (String × Int)) (sid : String)
    (p : Int) (events : List (Bool × Int)) :
    add_score false scores sid p = scores ∧
    get_score (add_score true scores sid p) sid = get_score scores sid + p ∧
    get_score (applyDeltas events scores sid) sid
      = get_score scores sid + gatedSum events := by
  refine ⟨rfl, get_score_add_score_true scores sid p, ?_⟩
  induction events generalizing scores with
  | nil => simp [applyDeltas, gatedSum]
  | cons e es ih =>
    cases e with
    | mk g d =>
      cases g with
      | false =>
        have : add_score false scores sid d = scores := rfl
        simpa [applyDeltas, gatedSum, List.foldl_cons, this] using ih scores
      | true =>
        have h1 := ih (add_score true scores sid d)
        have h2 := get_score_add_score_true scores sid d
        simp only [applyDeltas, List.foldl_cons] at h1 ⊢
        rw [h1, h2]
        simp [gatedSum, List.filter_cons]
        ring

/-! ## Concrete scenario data (spec §8: bank of 5, K=3, gate on) -/

def exBank : List Question :=
  [⟨"1.png", "a1", []⟩, ⟨"2.png", "a2", []⟩, ⟨"3.png", "a3", []⟩,
   ⟨"4.png", "a4", []⟩, ⟨"5.png", "a5", []⟩]

/-- The three questions `random.sample` returns in the scenario run. -/
def exSample : List Question := exBank.take 3

/-- Fresh state: gate true, empty ledger, no sessions. -/
def exState0 : PState := ⟨exBank, [], [], [], true⟩

/-- One scenario step: user `u`, nickname `nick`, raw message `c`. -/
def exStep (st : PState) (c : String) : PState × Option (List Reply) :=
  handle_text st "u" "nick" (pyStrip c) exSample

def exS1 : PState := (exStep exState0 "#猜成语").1

def exS2 : PState := (exStep exS1 "#答案 xyz").1

def exS3 : PState := (exStep exS2 "#答案 a1").1

def exS4 : PState := (exStep exS3 "#跳过").1

def exS5 : PState := (exStep exS4 "#答案 a3").1

/-- C2: the spec's scenario claims the closing round summary reports a
round score of 3, but the code adds the correct-answer delta to the
session's `score` on *every* correct answer, so the run (two correct
answers) ends with `本轮得分：6分`: the summary reports 6, not 3. -/
theorem C2_counterexample :
    (exStep exS4 "#答案 a3").2 = some [Reply.text (correctFinalMsg "a3" 4 6)] ∧
    get_score exS5.scores "u" = 4 ∧
    hasKey exS5.current_games "u" = false ∧
    correctFinalMsg "a3" 4 6 ≠ correctFinalMsg "a3" 4 3 := by
  refine ⟨rfl, rfl, rfl, ?_⟩
  decide

/-- C2 amended: the same command sequence yields the claimed intermediate
states (wrong answer leaves index 0 with the wrong-answer reply; correct
answer gives ledger 3 and index 1; skip gives ledger 1 and index 2; final
correct answer gives ledger 4 and destroys the session), but the round
summary reports a round score of 6 (two correct answers at +3 each). -/
theorem C2_amended :
    lookupKey exS1.current_games "u" = some ⟨exSample, 0, 0⟩ ∧
    get_score exS1.scores "u" = 0 ∧
    (exStep exS1 "#答案 xyz").2 = some [Reply.text wrongMsg] ∧
    lookupKey exS2.current_games "u" = some ⟨exSample, 0, 0⟩ ∧
    get_score exS3.scores "u" = 3 ∧
    (lookupKey exS3.current_games "u").map Game.current_index = some 1 ∧
    get_score exS4.scores "u" = 1 ∧
    (lookupKey exS4.current_games "u").map Game.current_index = some 2 ∧
    get_score exS5.scores "u" = 4 ∧
    hasKey exS5.current_games "u" = false ∧
    (exStep exS4 "#答案 a3").2 = some [Reply.text (correctFinalMsg "a3" 4 6)] := by
  refine ⟨rfl, rfl, rfl, rfl, rfl, rfl, rfl, rfl, rfl, rfl, rfl⟩


/-! ## Branch-equation lemmas for `handle_text` -/

theorem handle_start_loadfail (st : PState) (sid uname : String)
    (s3 : List Question) (hlen : st.questions.length < 3) :
    handle_text st sid uname "#猜成语" s3 =
      (update_username st sid uname, some [Reply.text loadFailMsg]) := by
  have e1 : (("#猜成语" : String) == "#排行") = false := by decide
  have e2 : (("#猜成语" : String) == "#积分") = false := by decide
  have e3 : (("#猜成语" : String) == "#猜成语") = true := by decide
  unfold handle_text
  simp only [e1, e2, e3, Bool.false_eq_true, if_false, if_true,
    update_username_questions]
  simp [hlen]

theorem handle_start_already (st : PState) (sid uname : String)
    (s3 : List Question) (hlen : ¬st.questions.length < 3)
    (hhas : hasKey st.current_games sid = true) :
    handle_text st sid uname "#猜成语" s3 =
      (update_username st sid uname, some [Reply.text alreadyMsg]) := by
  have e1 : (("#猜成语" : String) == "#排行") = false := by decide
  have e2 : (("#猜成语" : String) == "#积分") = false := by decide
  have e3 : (("#猜成语" : String) == "#猜成语") = true := by decide
  unfold handle_text
  simp only [e1, e2, e3, Bool.false_eq_true, if_false, if_true,
    update_username_questions, update_username_current_games]
  simp [hlen, hhas]

theorem handle_start_create (st : PState) (sid uname : String)
    (s3 : List Question) (hlen : ¬st.questions.length < 3)
    (hhas : hasKey st.current_games sid = false) :
    handle_text st sid uname "#猜成语" s3 =
      ({ update_username st sid uname with
           current_games := setKey st.current_games sid ⟨s3, 0, 0⟩ },
       some [Reply.imagePath (img_path (s3.getD 0 dummyQ).image),
             Reply.text (startInfoMsg st.is_daily_game_time)]) := by
  have e1 : (("#猜成语" : String) == "#排行") = false := by decide
  have e2 : (("#猜成语" : String) == "#积分") = false := by decide
  have e3 : (("#猜成语" : String) == "#猜成语") = true := by decide
  unfold handle_text
  simp only [e1, e2, e3, Bool.false_eq_true, if_false, if_true,
    update_username_questions, update_username_current_games,
    update_username_gate]
  simp [hlen, hhas]

theorem beq_false_of_startsWith_answer (c : String)
    (hpre : pyStartsWith c "#答案 " = true) :
    (c == "#排行") = false ∧ (c == "#积分") = false ∧ (c == "#猜成语") = false ∧
    (c == "#结束") = false ∧ (c == "#跳过") = false := by
  obtain ⟨h1, h2, h3, h4, h5⟩ := answer_prefix_ne c hpre
  exact ⟨by simp [h1], by simp [h2], by simp [h3], by simp [h4], by simp [h5]⟩

theorem handle_answer_nogame (st : PState) (sid uname c : String)
    (s3 : List Question) (hpre : pyStartsWith c "#答案 " = true)
    (hg : lookupKey st.current_games sid = none) :
    handle_text st sid uname c s3 =
      (update_username st sid uname, some [Reply.text noGameMsg]) := by
  obtain ⟨e1, e2, e3, e4, e5⟩ := beq_false_of_startsWith_answer c hpre
  unfold handle_text
  simp only [e1, e2, e3, Bool.false_eq_true, if_false, hpre, if_true,
    update_username_current_games, hg]

theorem handle_answer_wrong (st : PState) (sid uname c : String)
    (s3 : List Question) (g : Game) (hpre : pyStartsWith c "#答案 " = true)
    (hg : lookupKey st.current_games sid = some g)
    (hans : pyStrip (dropChars c 3) ≠ (g.questions.getD g.current_index dummyQ).answer) :
    handle_text st sid uname c s3 =
      (update_username st sid uname, some [Reply.text wrongMsg]) := by
  obtain ⟨e1, e2, e3, e4, e5⟩ := beq_false_of_startsWith_answer c hpre
  have ha : (pyStrip (dropChars c 3)
      == (g.questions.getD g.current_index dummyQ).answer) = false := by
    rw [beq_eq_false_iff_ne]; exact hans
  unfold handle_text
  simp only [e1, e2, e3, Bool.false_eq_true, if_false, hpre, if_true,
    update_username_current_games, hg, ha]

theorem handle_answer_correct_next (st : PState) (sid uname c : String)
    (s3 : List Question) (g : Game) (hpre : pyStartsWith c "#答案 " = true)
    (hg : lookupKey st.current_games sid = some g)
    (hans : pyStrip (dropChars c 3) = (g.questions.getD g.current_index dummyQ).answer)
    (hidx : g.current_index < 2) :
    handle_text st sid uname c s3 =
      ({ update_username st sid uname with
           scores := add_score st.is_daily_game_time st.scores sid 3,
           current_games := setKey st.current_games sid
             ⟨g.questions, g.current_index + 1, g.score + 3⟩ },
       some [Reply.text (correctNextMsg (pyStrip (dropChars c 3))
               (get_score (add_score st.is_daily_game_time st.scores sid 3) sid)),
             Reply.imagePath (img_path
               (g.questions.getD (g.current_index + 1) dummyQ).image),
             Reply.text (questionInfoMsg (g.current_index + 1))]) := by
  obtain ⟨e1, e2, e3, e4, e5⟩ := beq_false_of_startsWith_answer c hpre
  have ha : (pyStrip (dropChars c 3)
      == (g.questions.getD g.current_index dummyQ).answer) = true := by
    rw [beq_iff_eq]; exact hans
  unfold handle_text
  simp only [e1, e2, e3, Bool.false_eq_true, if_false, hpre, if_true,
    update_username_current_games, update_username_scores, update_username_gate,
    hg, ha, hidx]

theorem handle_answer_correct_final (st : PState) (sid uname c : String)
    (s3 : List Question) (g : Game) (hpre : pyStartsWith c "#答案 " = true)
    (hg : lookupKey st.current_games sid = some g)
    (hans : pyStrip (dropChars c 3) = (g.questions.getD g.current_index dummyQ).answer)
    (hidx : ¬g.current_index < 2) :
    handle_text st sid uname c s3 =
      ({ update_username st sid uname with
           scores := add_score st.is_daily_game_time st.scores sid 3,
           current_games := delKey st.current_games sid },
       some [Reply.text (correctFinalMsg (pyStrip (dropChars c 3))
               (get_score (add_score st.is_daily_game_time st.scores sid 3) sid)
               (g.score + 3))]) := by
  obtain ⟨e1, e2, e3, e4, e5⟩ := beq_false_of_startsWith_answer c hpre
  have ha : (pyStrip (dropChars c 3)
      == (g.questions.getD g.current_index dummyQ).answer) = true := by
    rw [beq_iff_eq]; exact hans
  unfold handle_text
  simp only [e1, e2, e3, Bool.false_eq_true, if_false, hpre, if_true,
    update_username_current_games, update_username_scores, update_username_gate,
    hg, ha, hidx]

theorem handle_end_nogame (st : PState) (sid uname : String) (s3 : List Question)
    (hg : lookupKey st.current_games sid = none) :
    handle_text st sid uname "#结束" s3 = (update_username st sid uname, none) := by
  have e1 : (("#结束" : String) == "#排行") = false := by decide
  have e2 : (("#结束" : String) == "#积分") = false := by decide
  have e3 : (("#结束" : String) == "#猜成语") = false := by decide
  have e4 : pyStartsWith "#结束" "#答案 " = false := by decide
  have e5 : (("#结束" : String) == "#结束") = true := by decide
  unfold handle_text
  simp only [e1, e2, e3, e4, e5, Bool.false_eq_true, if_false, if_true,
    update_username_current_games, hg]

theorem handle_end_ingame (st : PState) (sid uname : String) (s3 : List Question)
    (g : Game) (hg : lookupKey st.current_games sid = some g) :
    handle_text st sid uname "#结束" s3 =
      ({ update_username st sid uname with
           current_games := delKey st.current_games sid },
       some [Reply.text (endGameMsg
         (g.questions.getD g.current_index dummyQ).answer g.score)]) := by
  have e1 : (("#结束" : String) == "#排行") = false := by decide
  have e2 : (("#结束" : String) == "#积分") = false := by decide
  have e3 : (("#结束" : String) == "#猜成语") = false := by decide
  have e4 : pyStartsWith "#结束" "#答案 " = false := by decide
  have e5 : (("#结束" : String) == "#结束") = true := by decide
  unfold handle_text
  simp only [e1, e2, e3, e4, e5, Bool.false_eq_true, if_false, if_true,
    update_username_current_games, hg]

theorem handle_skip_nogame (st : PState) (sid uname : String) (s3 : List Question)
    (hg : lookupKey st.current_games sid = none) :
    handle_text st sid uname "#跳过" s3 = (update_username st sid uname, none) := by
  have e1 : (("#跳过" : String) == "#排行") = false := by decide
  have e2 : (("#跳过" : String) == "#积分") = false := by decide
  have e3 : (("#跳过" : String) == "#猜成语") = false := by decide
  have e4 : pyStartsWith "#跳过" "#答案 " = false := by decide
  have e5 : (("#跳过" : String) == "#结束") = false := by decide
  have e6 : (("#跳过" : String) == "#跳过") = true := by decide
  unfold handle_text
  simp only [e1, e2, e3, e4, e5, e6, Bool.false_eq_true, if_false, if_true,
    update_username_current_games, hg]

theorem handle_skip_next (st : PState) (sid uname : String) (s3 : List Question)
    (g : Game) (hg : lookupKey st.current_games sid = some g)
    (hidx : g.current_index < 2) :
    handle_text st sid uname "#跳过" s3 =
      ({ update_username st sid uname with
           scores := add_score st.is_daily_game_time st.scores sid (-2),
           current_games := setKey st.current_games sid
             ⟨g.questions, g.current_index + 1, g.score⟩ },
       some [Reply.text (skipNextMsg
               (get_score (add_score st.is_daily_game_time st.scores sid (-2)) sid)),
             Reply.imagePath (img_path
               (g.questions.getD (g.current_index + 1) dummyQ).image),
             Reply.text (questionInfoMsg (g.current_index + 1))]) := by
  have e1 : (("#跳过" : String) == "#排行") = false := by decide
  have e2 : (("#跳过" : String) == "#积分") = false := by decide
  have e3 : (("#跳过" : String) == "#猜成语") = false := by decide
  have e4 : pyStartsWith "#跳过" "#答案 " = false := by decide
  have e5 : (("#跳过" : String) == "#结束") = false := by decide
  have e6 : (("#跳过" : String) == "#跳过") = true := by decide
  unfold handle_text
  simp only [e1, e2, e3, e4, e5, e6, Bool.false_eq_true, if_false, if_true,
    update_username_current_games, update_username_scores, update_username_gate,
    hg, hidx]

theorem handle_skip_final (st : PState) (sid uname : String) (s3 : List Question)
    (g : Game) (hg : lookupKey st.current_games sid = some g)
    (hidx : ¬g.current_index < 2) :
    handle_text st sid uname "#跳过" s3 =
      ({ update_username st sid uname with
           scores := add_score st.is_daily_game_time st.scores sid (-2),
           current_games := delKey st.current_games sid },
       some [Reply.text (skipFinalMsg
         (get_score (add_score st.is_daily_game_time st.scores sid (-2)) sid)
         g.score)]) := by
  have e1 : (("#跳过" : String) == "#排行") = false := by decide
  have e2 : (("#跳过" : String) == "#积分") = false := by decide
  have e3 : (("#跳过" : String) == "#猜成语") = false := by decide
  have e4 : pyStartsWith "#跳过" "#答案 " = false := by decide
  have e5 : (("#跳过" : String) == "#结束") = false := by decide
  have e6 : (("#跳过" : String) == "#跳过") = true := by decide
  unfold handle_text
  simp only [e1, e2, e3, e4, e5, e6, Bool.false_eq_true, if_false, if_true,
    update_username_current_games, update_username_scores, update_username_gate,
    hg, hidx]

theorem handle_rank_state (st : PState) (sid uname : String) (s3 : List Question) :
    (handle_text st sid uname "#排行" s3).1 = update_username st sid uname := by
  have e1 : (("#排行" : String) == "#排行") = true := by decide
  unfold handle_text
  simp only [e1, if_true]
  split <;> rfl

theorem handle_score_state (st : PState) (sid uname : String) (s3 : List Question) :
    (handle_text st sid uname "#积分" s3).1 = update_username st sid uname := by
  have e1 : (("#积分" : String) == "#排行") = false := by decide
  have e2 : (("#积分" : String) == "#积分") = true := by decide
  unfold handle_text
  simp only [e1, e2, Bool.false_eq_true, if_false, if_true]

theorem handle_other (st : PState) (sid uname c : String) (s3 : List Question)
    (h1 : (c == "#排行") = false) (h2 : (c == "#积分") = false)
    (h3 : (c == "#猜成语") = false) (hpre : pyStartsWith c "#答案 " = false)
    (h4 : (c == "#结束") = false) (h5 : (c == "#跳过") = false) :
    handle_text st sid uname c s3 = (update_username st sid uname, none) := by
  unfold handle_text
  simp only [h1, h2, h3, hpre, h4, h5, Bool.false_eq_true, if_false]

/-! ## C3: answer comparison -/

/-- C3: the claim that the submission is compared byte-for-byte "with no
normalization of the user input" fails: surrounding whitespace is
stripped before the comparison.  With the session at question `a1`, the
raw message `"#答案 a1 "` is treated as correct (the session advances to
index 1 and the ledger is credited with +3) although the text following
the command prefix and separator, `"a1 "`, is not byte-for-byte equal to
the stored answer `"a1"`. -/
theorem C3_counterexample :
    (on_handle_context exS1 ⟨ContextType.TEXT, "#答案 a1 ", "u", some ⟨some "nick"⟩⟩
        exSample).toOption.map
      (fun r => ((lookupKey r.1.current_games "u").map Game.current_index,
                 get_score r.1.scores "u"))
      = some (some 1, 3) ∧
    dropChars "#答案 a1 " 4 ≠ "a1" := by
  exact ⟨rfl, by decide⟩

/-- C3 amended: for every active session and submitted message that
carries the answer-command prefix, the handler treats the submission as
correct exactly when the argument equals the stored answer after Python's
`strip()` is applied (to the whole message and to the slice after the
3-character command token) — surrounding whitespace is the only
normalization, and the residual comparison is exact, case-sensitive
string equality.  "Treated as correct" is observable as the stored
session changing (index advance or destruction); on a wrong answer the
stored session entry is left exactly as it was. -/
theorem C3_amended (st : PState) (sid uname c : String)
    (sample3 : List Question) (g : Game)
    (hpre : pyStartsWith c "#答案 " = true)
    (hg : lookupKey st.current_games sid = some g) :
    (lookupKey (handle_text st sid uname c sample3).1.current_games sid ≠ some g)
      ↔ pyStrip (dropChars c 3) = (g.questions.getD g.current_index dummyQ).answer := by
  by_cases hans :
      pyStrip (dropChars c 3) = (g.questions.getD g.current_index dummyQ).answer
  · refine iff_of_true ?_ hans
    by_cases hidx : g.current_index < 2
    · rw [handle_answer_correct_next st sid uname c sample3 g hpre hg hans hidx]
      simp only [lookupKey_setKey_self]
      intro hEq
      have hsame := Option.some_injective _ hEq
      have : g.current_index + 1 = g.current_index :=
        congrArg Game.current_index hsame
      omega
    · rw [handle_answer_correct_final st sid uname c sample3 g hpre hg hans hidx]
      simp only [lookupKey_delKey_self]
      exact fun hEq => Option.noConfusion hEq
  · refine iff_of_false ?_ hans
    rw [handle_answer_wrong st sid uname c sample3 g hpre hg hans]
    simp only [update_username_current_games, ne_eq, not_not]
    exact hg

/-- Witness for `C3_amended` at a concrete input: in state `exS1` (session
at question `a1`) the message `"#答案 a1"` is treated as correct. -/
theorem C3_amended_witness :
    lookupKey (handle_text exS1 "u" "nick" "#答案 a1" exSample).1.current_games "u"
      ≠ some ⟨exSample, 0, 0⟩ := by
  exact (C3_amended exS1 "u" "nick" "#答案 a1" exSample ⟨exSample, 0, 0⟩
    (by decide) (by decide)).mpr (by decide)

/-! ## C5 and C6: session lifecycle -/

/-- Sequential handling of messages `(username, content, sample)` for one
user; `content` is the stripped text, `sample` what `random.sample` would
return at that step. -/
def runMsgs (sid : String) (st : PState) :
    List (String × String × List Question) → PState
  | [] => st
  | e :: rest => runMsgs sid (handle_text st sid e.1 e.2.1 e.2.2).1 rest

/-- C5: starting a round and answering correctly three times destroys the
session exactly after the third correct answer and never earlier: after
`Start` the session exists at index 0, after the first and second correct
answers it still exists (at indices 1 and 2), and after the third it is
gone.  Moreover a wrong answer never destroys any session: it leaves the
whole session map unchanged (same question re-asked). -/
theorem C5_destroyed_exactly_after_K (st : PState) (sid u0 u1 u2 u3 c1 c2 c3 : String)
    (qa qb qc : Question) (s3 : List Question)
    (hlen : ¬st.questions.length < 3)
    (hfree : hasKey st.current_games sid = false)
    (hp1 : pyStartsWith c1 "#答案 " = true)
    (ha1 : pyStrip (dropChars c1 3) = qa.answer)
    (hp2 : pyStartsWith c2 "#答案 " = true)
    (ha2 : pyStrip (dropChars c2 3) = qb.answer)
    (hp3 : pyStartsWith c3 "#答案 " = true)
    (ha3 : pyStrip (dropChars c3 3) = qc.answer) :
    (∀ st' g c u s3x, pyStartsWith c "#答案 " = true →
        lookupKey st'.current_games sid = some g →
        pyStrip (dropChars c 3) ≠ (g.questions.getD g.current_index dummyQ).answer →
        (handle_text st' sid u c s3x).1.current_games = st'.current_games) ∧
    lookupKey (runMsgs sid st [(u0, "#猜成语", [qa, qb, qc])]).current_games sid
      = some ⟨[qa, qb, qc], 0, 0⟩ ∧
    lookupKey (runMsgs sid st
        [(u0, "#猜成语", [qa, qb, qc]), (u1, c1, s3)]).current_games sid
      = some ⟨[qa, qb, qc], 1, 3⟩ ∧
    lookupKey (runMsgs sid st
        [(u0, "#猜成语", [qa, qb, qc]), (u1, c1, s3), (u2, c2, s3)]).current_games sid
      = some ⟨[qa, qb, qc], 2, 6⟩ ∧
    lookupKey (runMsgs sid st
        [(u0, "#猜成语", [qa, qb, qc]), (u1, c1, s3), (u2, c2, s3),
         (u3, c3, s3)]).current_games sid = none := by
  have hstart := handle_start_create st sid u0 [qa, qb, qc] hlen hfree
  have hl1 : lookupKey (runMsgs sid st [(u0, "#猜成语", [qa, qb, qc])]).current_games sid
      = some ⟨[qa, qb, qc], 0, 0⟩ := by
    simp only [runMsgs, hstart]
    exact lookupKey_setKey_self _ _ _
  have hg1 := hl1
  simp only [runMsgs] at hg1
  have hnext1 := handle_answer_correct_next _ sid u1 c1 s3 ⟨[qa, qb, qc], 0, 0⟩ hp1 hg1
    (by simpa using ha1) (by norm_num)
  have hl2 : lookupKey (runMsgs sid st
      [(u0, "#猜成语", [qa, qb, qc]), (u1, c1, s3)]).current_games sid
      = some ⟨[qa, qb, qc], 1, 3⟩ := by
    simp only [runMsgs, hnext1]
    exact lookupKey_setKey_self _ _ _
  have hg2 := hl2
  simp only [runMsgs] at hg2
  have hnext2 := handle_answer_correct_next _ sid u2 c2 s3 ⟨[qa, qb, qc], 1, 3⟩ hp2 hg2
    (by simpa using ha2) (by norm_num)
  have hl3 : lookupKey (runMsgs sid st
      [(u0, "#猜成语", [qa, qb, qc]), (u1, c1, s3), (u2, c2, s3)]).current_games sid
      = some ⟨[qa, qb, qc], 2, 6⟩ := by
    simp only [runMsgs, hnext2]
    exact lookupKey_setKey_self _ _ _
  have hg3 := hl3
  simp only [runMsgs] at hg3
  have hfin := handle_answer_correct_final _ sid u3 c3 s3 ⟨[qa, qb, qc], 2, 6⟩ hp3 hg3
    (by simpa using ha3) (by norm_num)
  refine ⟨?_, hl1, hl2, hl3, ?_⟩
  · intro st' g c u s3x hpre hg hans
    rw [handle_answer_wrong st' sid u c s3x g hpre hg hans]
    simp
  · simp only [runMsgs, hfin]
    exact lookupKey_delKey_self _ _

/-- Witness for `C5_destroyed_exactly_after_K` on the concrete scenario
bank: the trajectory of `exState0` under Start and the three correct
answers. -/
theorem C5_witness :
    lookupKey (runMsgs "u" exState0
      [("nick", "#猜成语", exBank.take 3), ("nick", "#答案 a1", exSample),
       ("nick", "#答案 a2", exSample), ("nick", "#答案 a3", exSample)]).current_games "u"
      = none := by
  have h := C5_destroyed_exactly_after_K exState0 "u" "nick" "nick" "nick" "nick"
    "#答案 a1" "#答案 a2" "#答案 a3" ⟨"1.png", "a1", []⟩ ⟨"2.png", "a2", []⟩
    ⟨"3.png", "a3", []⟩ exSample (by decide) (by decide) (by decide) (by decide)
    (by decide) (by decide) (by decide) (by decide)
  exact h.2.2.2.2

/-- C6: issuing Start while a session is already active replies "already
in a game" and changes no game or ledger state: the session map and the
ledger are exactly as before, so the existing session's `roundQuestions`,
`currentIndex` and `roundScore` are untouched and no new session is
created.  (The hypothesis that the bank holds at least 3 questions is met
in every reachable state that has an active session, since session
creation requires it and the bank is immutable after startup.) -/
theorem C6_start_while_active (st : PState) (sid uname : String)
    (s3 : List Question) (g : Game)
    (hg : lookupKey st.current_games sid = some g)
    (hlen : ¬st.questions.length < 3) :
    (handle_text st sid uname "#猜成语" s3).1.current_games = st.current_games ∧
    (handle_text st sid uname "#猜成语" s3).1.scores = st.scores ∧
    lookupKey (handle_text st sid uname "#猜成语" s3).1.current_games sid = some g ∧
    (handle_text st sid uname "#猜成语" s3).2 = some [Reply.text alreadyMsg] := by
  have hhas : hasKey st.current_games sid = true := by
    rw [hasKey_eq_isSome, hg]; rfl
  rw [handle_start_already st sid uname s3 hlen hhas]
  exact ⟨by simp, by simp, by simpa using hg, rfl⟩

/-- Witness for `C6_start_while_active`: in state `exS1` (active session)
a second Start replies "already in a game" and leaves the session map
unchanged. -/
theorem C6_witness :
    (handle_text exS1 "u" "nick" "#猜成语" exSample).1.current_games
        = exS1.current_games ∧
    (handle_text exS1 "u" "nick" "#猜成语" exSample).2
        = some [Reply.text alreadyMsg] := by
  have h := C6_start_while_active exS1 "u" "nick" exSample ⟨exSample, 0, 0⟩
    (by decide) (by decide)
  exact ⟨h.1, h.2.2.2⟩

/-! ## C10: small bank guards the sampling call -/

/-- C10: when the bank holds fewer than 3 records, Start replies with the
load-failure message, leaves the session map and the ledger unchanged,
and never consults the sampler — the result is identical for every value
the sampling call could have produced, so `random.sample(questions, 3)`
is only ever executed with at least 3 records available. -/
theorem C10_small_bank_guards_sampling (st : PState) (sid uname : String)
    (s3 s3' : List Question) (hlen : st.questions.length < 3) :
    handle_text st sid uname "#猜成语" s3 = handle_text st sid uname "#猜成语" s3' ∧
    (handle_text st sid uname "#猜成语" s3).1.current_games = st.current_games ∧
    (handle_text st sid uname "#猜成语" s3).1.scores = st.scores ∧
    (handle_text st sid uname "#猜成语" s3).2 = some [Reply.text loadFailMsg] := by
  rw [handle_start_loadfail st sid uname s3 hlen,
    handle_start_loadfail st sid uname s3' hlen]
  exact ⟨rfl, by simp, by simp, rfl⟩

/-- Witness for `C10_small_bank_guards_sampling`: Start on the empty-bank
state replies with the load-failure message. -/
theorem C10_witness :
    (handle_text (init_state LoadOutcome.failed none none) "u" "nick" "#猜成语"
      exSample).2 = some [Reply.text loadFailMsg] := by
  exact (C10_small_bank_guards_sampling (init_state LoadOutcome.failed none none)
    "u" "nick" exSample [] (by decide)).2.2.2

/-! ## C9: exception handling at the router boundary -/

/-- C9: the claim that unexpected exceptions are caught at the router
boundary fails: `on_handle_context` contains no exception handler.  On a
TEXT message whose `kwargs` carry no `msg` object,
`kwargs.get('msg').get('actual_user_nickname', ...)` raises
`AttributeError`, which propagates out of the handler with no reply —
in particular no generic "try again later" text is produced. -/
theorem C9_counterexample :
    on_handle_context exState0 ⟨ContextType.TEXT, "#积分", "u", none⟩ []
      = Except.error PyError.attributeError := rfl

/-- C9 amended: the repository installs no guard at the router boundary:
for every state and every TEXT message lacking the `msg` metadata, the
handler propagates `AttributeError` to the host and produces no reply of
any kind (the dispatch loop that might catch it lives outside this
repository). -/
theorem C9_amended (st : PState) (c sid : String) (s3 : List Question) :
    on_handle_context st ⟨ContextType.TEXT, c, sid, none⟩ s3
      = Except.error PyError.attributeError := rfl

/-! ## C8: startup with an unusable question bank -/

/-- C8: the claim that a missing/empty/malformed question bank is fatal at
startup fails: `__init__` catches the load exception, logs it, sets the
bank to `[]` and continues, so the system does come up and handles
commands — Start is answered with the load-failure text instead of the
process refusing to start. -/
theorem C8_counterexample :
    (init_state LoadOutcome.failed none none).questions = [] ∧
    (on_handle_context (init_state LoadOutcome.failed none none)
        ⟨ContextType.TEXT, "#猜成语", "u", some ⟨some "nick"⟩⟩ []).toOption.map
      (fun r => r.2) = some (some [Reply.text loadFailMsg]) := ⟨rfl, rfl⟩

/-- C8 amended: a question-bank load failure is non-fatal: startup
completes with an empty bank, command handling proceeds, and the Start
command is answered with the load-failure message (other commands are
served normally); the system never runs a round without a usable bank,
but it does come up. -/
theorem C8_amended (scoresL : Option (List (String × Int)))
    (usernamesL : Option (List (String × String))) (sid uname : String)
    (s3 : List Question) :
    (init_state LoadOutcome.failed scoresL usernamesL).questions = [] ∧
    (handle_text (init_state LoadOutcome.failed scoresL usernamesL) sid uname
      "#猜成语" s3).2 = some [Reply.text loadFailMsg] := by
  refine ⟨rfl, ?_⟩
  have hlen : (init_state LoadOutcome.failed scoresL usernamesL).questions.length < 3 := by
    simp [init_state, load_questions]
  rw [handle_start_loadfail _ sid uname s3 hlen]

/-! ## C4: round score counts correct answers only -/

/-- External events affecting one user's state: an inbound message (with
the sample the bank would return) or a scheduler trigger flipping the
daily-window flag (`start_daily_game` / `end_daily_game`). -/
inductive Ev where
  | msg (uname content : String) (sample3 : List Question)
  | setGate (b : Bool)

/-- This message creates a session: Start with a big-enough bank and no
session active. -/
def isStartCreate (st : PState) (sid content : String) : Bool :=
  content == "#猜成语" && !(decide (st.questions.length < 3)) &&
    !(hasKey st.current_games sid)

/-- This message is a correct answer for the user's current question. -/
def isCorrectAnswer (st : PState) (sid content : String) : Bool :=
  pyStartsWith content "#答案 " &&
    (match lookupKey st.current_games sid with
     | some g =>
         pyStrip (dropChars content 3) == (g.questions.getD g.current_index dummyQ).answer
     | none => false)

/-- Number of correct answers given in the user's current session after
one more message: reset on session creation, incremented on a correct
answer, otherwise unchanged. -/
def nextCount (st : PState) (sid content : String) (n : Nat) : Nat :=
  if isStartCreate st sid content then 0
  else if isCorrectAnswer st sid content then n + 1
  else n

/-- Run a list of events, tracking the correct-answer count of the
current session. -/
def runCount (sid : String) : PState → Nat → List Ev → PState × Nat
  | st, n, [] => (st, n)
  | st, n, Ev.setGate b :: rest =>
      runCount sid { st with is_daily_game_time := b } n rest
  | st, n, Ev.msg u c s3 :: rest =>
      runCount sid (handle_text st sid u c s3).1 (nextCount st sid c n) rest


theorem score_invariant_step (st : PState) (sid u c : String) (s3 : List Question)
    (n : Nat) (h : ∀ g, lookupKey st.current_games sid = some g → g.score = 3 * n) :
    ∀ g', lookupKey (handle_text st sid u c s3).1.current_games sid = some g' →
      g'.score = 3 * nextCount st sid c n := by
  by_cases hc1 : c = "#排行"
  · subst hc1
    have d1 : (("#排行" : String) == "#猜成语") = false := by decide
    have d2 : pyStartsWith "#排行" "#答案 " = false := by decide
    have hn : nextCount st sid "#排行" n = n := by
      simp [nextCount, isStartCreate, isCorrectAnswer, d1, d2]
    intro g' hg'
    rw [handle_rank_state, update_username_current_games] at hg'
    rw [hn]; exact h g' hg'
  by_cases hc2 : c = "#积分"
  · subst hc2
    have d1 : (("#积分" : String) == "#猜成语") = false := by decide
    have d2 : pyStartsWith "#积分" "#答案 " = false := by decide
    have hn : nextCount st sid "#积分" n = n := by
      simp [nextCount, isStartCreate, isCorrectAnswer, d1, d2]
    intro g' hg'
    rw [handle_score_state, update_username_current_games] at hg'
    rw [hn]; exact h g' hg'
  by_cases hc3 : c = "#猜成语"
  · subst hc3
    have d2 : pyStartsWith "#猜成语" "#答案 " = false := by decide
    have dICA : isCorrectAnswer st sid "#猜成语" = false := by
      simp [isCorrectAnswer, d2]
    by_cases hlen : st.questions.length < 3
    · have hn : nextCount st sid "#猜成语" n = n := by
        simp [nextCount, isStartCreate, dICA, hlen]
      intro g' hg'
      rw [handle_start_loadfail st sid u s3 hlen, update_username_current_games] at hg'
      rw [hn]; exact h g' hg'
    · cases hhas : hasKey st.current_games sid with
      | true =>
        have hn : nextCount st sid "#猜成语" n = n := by
          simp [nextCount, isStartCreate, dICA, hlen, hhas]
        intro g' hg'
        rw [handle_start_already st sid u s3 hlen hhas,
          update_username_current_games] at hg'
        rw [hn]; exact h g' hg'
      | false =>
        have hn : nextCount st sid "#猜成语" n = 0 := by
          simp [nextCount, isStartCreate, hlen, hhas]
        intro g' hg'
        rw [handle_start_create st sid u s3 hlen hhas] at hg'
        simp only [lookupKey_setKey_self] at hg'
        cases hg'
        rw [hn]
        simp
  by_cases hpre : pyStartsWith c "#答案 " = true
  · have dISC : isStartCreate st sid c = false := by
      have := (answer_prefix_ne c hpre).2.2.1
      simp [isStartCreate, this]
    cases hg : lookupKey st.current_games sid with
    | none =>
      have hn : nextCount st sid c n = n := by
        simp [nextCount, dISC, isCorrectAnswer, hg]
      intro g' hg'
      rw [handle_answer_nogame st sid u c s3 hpre hg,
        update_username_current_games] at hg'
      rw [hn]; exact h g' hg'
    | some g =>
      by_cases hans : pyStrip (dropChars c 3) = (g.questions.getD g.current_index dummyQ).answer
      · have hn : nextCount st sid c n = n + 1 := by
          simp [nextCount, dISC, isCorrectAnswer, hpre, hg, hans]
        by_cases hidx : g.current_index < 2
        · intro g' hg'
          rw [handle_answer_correct_next st sid u c s3 g hpre hg hans hidx] at hg'
          simp only [lookupKey_setKey_self] at hg'
          cases hg'
          rw [hn]
          have := h g hg
          simp only [Game.score]
          omega
        · intro g' hg'
          rw [handle_answer_correct_final st sid u c s3 g hpre hg hans hidx] at hg'
          simp only [lookupKey_delKey_self] at hg'
          exact absurd hg' (by simp)
      · have hn : nextCount st sid c n = n := by
          have hb : (pyStrip (dropChars c 3)
              == (g.questions.getD g.current_index dummyQ).answer) = false := by
            rw [beq_eq_false_iff_ne]; exact hans
          have hICA : isCorrectAnswer st sid c = false := by
            unfold isCorrectAnswer
            rw [hg]
            simp only [hb, Bool.and_false]
          simp only [nextCount, dISC, Bool.false_eq_true, if_false, hICA]
        intro g' hg'
        rw [handle_answer_wrong st sid u c s3 g hpre hg hans,
          update_username_current_games] at hg'
        rw [hn]; exact h g' hg'
  by_cases hc4 : c = "#结束"
  · subst hc4
    have d1 : (("#结束" : String) == "#猜成语") = false := by decide
    have d2 : pyStartsWith "#结束" "#答案 " = false := by decide
    have hn : nextCount st sid "#结束" n = n := by
      simp [nextCount, isStartCreate, isCorrectAnswer, d1, d2]
    cases hg : lookupKey st.current_games sid with
    | none =>
      intro g' hg'
      rw [handle_end_nogame st sid u s3 hg, update_username_current_games] at hg'
      rw [hn]; exact h g' hg'
    | some g =>
      intro g' hg'
      rw [handle_end_ingame st sid u s3 g hg] at hg'
      simp only [lookupKey_delKey_self] at hg'
      exact absurd hg' (by simp)
  by_cases hc5 : c = "#跳过"
  · subst hc5
    have d1 : (("#跳过" : String) == "#猜成语") = false := by decide
    have d2 : pyStartsWith "#跳过" "#答案 " = false := by decide
    have hn : nextCount st sid "#跳过" n = n := by
      simp [nextCount, isStartCreate, isCorrectAnswer, d1, d2]
    cases hg : lookupKey st.current_games sid with
    | none =>
      intro g' hg'
      rw [handle_skip_nogame st sid u s3 hg, update_username_current_games] at hg'
      rw [hn]; exact h g' hg'
    | some g =>
      by_cases hidx : g.current_index < 2
      · intro g' hg'
        rw [handle_skip_next st sid u s3 g hg hidx] at hg'
        simp only [lookupKey_setKey_self] at hg'
        cases hg'
        rw [hn]
        exact h g hg
      · intro g' hg'
        rw [handle_skip_final st sid u s3 g hg hidx] at hg'
        simp only [lookupKey_delKey_self] at hg'
        exact absurd hg' (by simp)
  · have b1 : (c == "#排行") = false := by simp [hc1]
    have b2 : (c == "#积分") = false := by simp [hc2]
    have b3 : (c == "#猜成语") = false := by simp [hc3]
    have b4 : (c == "#结束") = false := by simp [hc4]
    have b5 : (c == "#跳过") = false := by simp [hc5]
    have bpre : pyStartsWith c "#答案 " = false := by
      cases hv : pyStartsWith c "#答案 "
      · rfl
      · exact absurd hv hpre
    have hn : nextCount st sid c n = n := by
      simp [nextCount, isStartCreate, isCorrectAnswer, b3, bpre]
    intro g' hg'
    rw [handle_other st sid u c s3 b1 b2 b3 bpre b4 b5,
      update_username_current_games] at hg'
    rw [hn]; exact h g' hg'

/-- C4: in every state reachable by any event sequence (messages and gate
flips), an active session's `score` equals the correct-answer delta (3)
times the number of correct answers given in that session so far — skips
leave it untouched and the gate state never affects it; and whenever a
session is destroyed, the round summary the handler emits reports exactly
that sum: `3n + 3` for a final correct answer (itself the `n+1`-st correct
answer) and `3n` for a final skip or an explicit End. -/
theorem C4_roundScore_sums_correct_deltas (sid : String) (evs : List Ev)
    (st : PState) (n : Nat)
    (h : ∀ g, lookupKey st.current_games sid = some g → g.score = 3 * n) :
    (∀ g', lookupKey (runCount sid st n evs).1.current_games sid = some g' →
        g'.score = 3 * (runCount sid st n evs).2) ∧
    (∀ u c s3 g, lookupKey st.current_games sid = some g →
        pyStartsWith c "#答案 " = true →
        pyStrip (dropChars c 3) = (g.questions.getD g.current_index dummyQ).answer →
        ¬g.current_index < 2 →
        (handle_text st sid u c s3).2 = some [Reply.text (correctFinalMsg
          (pyStrip (dropChars c 3))
          (get_score (add_score st.is_daily_game_time st.scores sid 3) sid)
          (3 * n + 3))]) ∧
    (∀ u s3 g, lookupKey st.current_games sid = some g → ¬g.current_index < 2 →
        (handle_text st sid u "#跳过" s3).2 = some [Reply.text (skipFinalMsg
          (get_score (add_score st.is_daily_game_time st.scores sid (-2)) sid)
          (3 * n))]) ∧
    (∀ u s3 g, lookupKey st.current_games sid = some g →
        (handle_text st sid u "#结束" s3).2 = some [Reply.text (endGameMsg
          (g.questions.getD g.current_index dummyQ).answer (3 * n))]) := by
  refine ⟨?_, ?_, ?_, ?_⟩
  · induction evs generalizing st n with
    | nil => exact h
    | cons e rest ih =>
      cases e with
      | setGate b =>
        exact ih { st with is_daily_game_time := b } n h
      | msg u c s3 =>
        exact ih (handle_text st sid u c s3).1 (nextCount st sid c n)
          (score_invariant_step st sid u c s3 n h)
  · intro u c s3 g hg hpre hans hidx
    rw [handle_answer_correct_final st sid u c s3 g hpre hg hans hidx, h g hg]
  · intro u s3 g hg hidx
    rw [handle_skip_final st sid u s3 g hg hidx, h g hg]
  · intro u s3 g hg
    rw [handle_end_ingame st sid u s3 g hg, h g hg]

/-- Witness for `C4_roundScore_sums_correct_deltas` at the concrete state
`exS4` (one correct answer so far, `roundScore = 3`): the closing correct
answer's round summary reports `3·1 + 3 = 6`. -/
theorem C4_witness :
    (handle_text exS4 "u" "nick" "#答案 a3" exSample).2
      = some [Reply.text (correctFinalMsg "a3" 4 6)] := by
  have hinv : ∀ g, lookupKey exS4.current_games "u" = some g →
      g.score = 3 * (1 : Nat) := by
    intro g hg
    have hv : lookupKey exS4.current_games "u" = some ⟨exSample, 2, 3⟩ := rfl
    rw [hv] at hg
    cases hg
    rfl
  exact (C4_roundScore_sums_correct_deltas "u" [] exS4 1 hinv).2.1 "nick" "#答案 a3"
    exSample ⟨exSample, 2, 3⟩ rfl (by decide) (by decide) (by decide)

theorem findFrom_eq_zero (p : α → Bool) (l : List α) :
    ∀ s : Nat, (∀ x ∈ l, p x = false) → findFrom p l s = 0 := by
  induction l with
  | nil => intro s _; rfl
  | cons a rest ih =>
    intro s h
    have ha := h a (by simp)
    simp only [findFrom, ha, Bool.false_eq_true, if_false]
    exact ih (s + 1) (fun x hx => h x (by simp [hx]))

theorem findFrom_le (p : α → Bool) (l : List α) :
    ∀ s : Nat, (∃ x ∈ l, p x = true) → s ≤ findFrom p l s := by
  induction l with
  | nil => intro s h; rcases h with ⟨x, hx, _⟩; cases hx
  | cons a rest ih =>
    intro s h
    by_cases ha : p a = true
    · simp [findFrom, ha]
    · have ha' : p a = false := by
        cases hv : p a with
        | false => rfl
        | true => exact absurd hv ha
      simp only [findFrom, ha', Bool.false_eq_true, if_false]
      rcases h with ⟨x, hx, hp⟩
      rcases List.mem_cons.mp hx with h1 | h2
      · exact absurd (h1 ▸ hp) ha
      · exact le_trans (Nat.le_succ s) (ih (s + 1) ⟨x, h2, hp⟩)

theorem findFrom_getElem (k : String) (v : β) (l : List (String × β)) :
    ∀ (i s : Nat), (l.map Prod.fst).Nodup → l[i]? = some (k, v) →
      findFrom (fun q => q.1 == k) l s = s + i := by
  induction l with
  | nil => intro i s _ h; simp at h
  | cons a rest ih =>
    intro i s hnd h
    cases i with
    | zero =>
      simp only [List.getElem?_cons_zero, Option.some.injEq] at h
      subst h
      simp [findFrom]
    | succ j =>
      have hrest : rest[j]? = some (k, v) := by simpa using h
      rw [List.map_cons] at hnd
      have hnd' := List.nodup_cons.mp hnd
      have hk : k ∈ rest.map Prod.fst :=
        List.mem_map_of_mem Prod.fst (List.getElem?_mem hrest)
      have hne : a.1 ≠ k := fun hEq => hnd'.1 (hEq ▸ hk)
      have hb : (a.1 == k) = false := by simp [hne]
      simp only [findFrom, hb, Bool.false_eq_true, if_false]
      have := ih j (s + 1) hnd'.2 hrest
      omega

theorem sortScores_sorted (scores : List (String × Int)) :
    List.Pairwise (fun a b : String × Int => b.2 ≤ a.2) (sortScores scores) := by
  haveI : IsTotal (String × Int) (fun a b => a.2 ≥ b.2) := ⟨fun a b => le_total b.2 a.2⟩
  haveI : IsTrans (String × Int) (fun a b => a.2 ≥ b.2) :=
    ⟨fun a b c h1 h2 => le_trans h2 h1⟩
  exact List.sorted_insertionSort _ scores

theorem sortScores_perm (scores : List (String × Int)) :
    List.Perm (sortScores scores) scores := List.perm_insertionSort _ scores

/-- C7: `get_top_players` lists entries in descending score order; the
rank computed by the score branch is 0 exactly for users absent from the
ledger and at least 1 for present ones; and (with distinct scores and the
dict guarantee of unique keys) the entry at 1-based position `r` of the
sorted ledger appears at position `r` of `get_top_players limit` for any
`limit ≥ r`, and its user's rank is exactly `r`. -/
theorem C7_leaderboard_consistency (st : PState) (sid : String) (limit r : Nat)
    (entry : String × Int)
    (hnodup : (st.scores.map Prod.fst).Nodup)
    (_hdistinct : (st.scores.map Prod.snd).Nodup)
    (hr : 1 ≤ r) (hrl : r ≤ limit)
    (hget : (sortScores st.scores)[r - 1]? = some entry) :
    List.Pairwise (fun a b : String × Int => b.2 ≤ a.2) (get_top_players st limit) ∧
    (hasKey st.scores sid = false → rankNext st.scores sid = 0) ∧
    (hasKey st.scores sid = true → 1 ≤ rankNext st.scores sid) ∧
    (get_top_players st limit)[r - 1]? = some (get_username st entry.1, entry.2) ∧
    rankNext st.scores entry.1 = r := by
  refine ⟨?_, ?_, ?_, ?_, ?_⟩
  · have hs := sortScores_sorted st.scores
    have ht : List.Pairwise (fun a b : String × Int => b.2 ≤ a.2)
        ((sortScores st.scores).take limit) :=
      hs.sublist (List.take_sublist limit _)
    exact (List.pairwise_map).mpr (ht.imp (fun {a b} hab => hab))
  · intro habs
    apply findFrom_eq_zero
    intro x hx
    have hxm : x ∈ st.scores := ((sortScores_perm st.scores).mem_iff).mp hx
    have : ¬∃ x ∈ st.scores, (x.1 == sid) = true := by
      intro ⟨y, hy, hyp⟩
      have : hasKey st.scores sid = true := List.any_eq_true.mpr ⟨y, hy, hyp⟩
      rw [habs] at this
      exact Bool.false_ne_true this
    cases hv : (x.1 == sid) with
    | false => rfl
    | true => exact absurd ⟨x, hxm, hv⟩ this
  · intro hpres
    obtain ⟨y, hy, hyp⟩ := List.any_eq_true.mp hpres
    exact findFrom_le _ _ 1 ⟨y, ((sortScores_perm st.scores).mem_iff).mpr hy, hyp⟩
  · unfold get_top_players
    rw [List.getElem?_map, List.getElem?_take]
    have : r - 1 < limit := by omega
    rw [if_pos this, hget]
    rfl
  · have hndm : ((sortScores st.scores).map Prod.fst).Nodup :=
      (((sortScores_perm st.scores).map Prod.fst).nodup_iff).mpr hnodup
    have hget' : (sortScores st.scores)[r - 1]? = some (entry.1, entry.2) := by
      simpa using hget
    have := findFrom_getElem entry.1 entry.2 (sortScores st.scores) (r - 1) 1 hndm hget'
    unfold rankNext
    rw [this]
    omega

/-- Ledger fixture for the leaderboard witness: three users with distinct
scores. -/
def exLedgerState : PState :=
  ⟨[], [], [("a", 5), ("b", 9), ("c", 1)],
   [("a", "A"), ("b", "B"), ("c", "C")], false⟩

/-- Witness for `C7_leaderboard_consistency`: in the fixture, position 2
of the top list is user `a` (display name `A`, score 5), whose rank is 2;
the absent user `zz` has rank 0. -/
theorem C7_witness :
    (get_top_players exLedgerState 2)[2 - 1]? = some ("A", 5) ∧
    rankNext exLedgerState.scores "a" = 2 ∧
    rankNext exLedgerState.scores "zz" = 0 := by
  have h := C7_leaderboard_consistency exLedgerState "zz" 2 2 ("a", 5)
    (by decide) (by decide) (by decide) (by decide) (by decide)
  exact ⟨h.2.2.2.1, h.2.2.2.2, h.2.1 (by decide)⟩
